import Mathlib

/-
Shallow embedding of the SEAPI web server (src/main.py): a search aggregator
over a structured Google Custom Search client and a scraping DuckDuckGo Lite
client, plus a chat proxy.  Network responses are modelled as explicit inputs
to the client functions; the HTML row structure produced by BeautifulSoup is
modelled as a list of abstract rows.
-/

namespace SEAPI

/-- Python truthiness of an optional environment string: None and the empty
string are falsy (used by the key checks in main.py lines 51 and 149). -/
def pyTruthy : Option String → Bool
  | none => false
  | some s => !s.isEmpty

/-- The whitespace characters Python int() strips from both ends: space,
tab, newline, carriage return, vertical tab, form feed. -/
def pySpace (c : Char) : Bool :=
  c = ' ' || c = '\t' || c = '\n' || c = '\r' || c = '\x0b' || c = '\x0c'

/-- Python int(s) on a query-string value: strips surrounding whitespace,
allows one leading sign, then requires a non-empty run of decimal digits
(underscore digit separators are not modelled).  Returns none where Python
raises ValueError (main.py line 174). -/
def pyInt (s : String) : Option Int :=
  let t := ((s.data.dropWhile pySpace).reverse.dropWhile pySpace).reverse
  let stripped : Bool × List Char :=
    match t with
    | '-' :: rest => (true, rest)
    | '+' :: rest => (false, rest)
    | cs => (false, cs)
  let digits := stripped.2
  if digits.length != 0 && digits.all Char.isDigit then
    let n : Nat := digits.foldl (fun acc c => acc * 10 + (c.toNat - 48)) 0
    some (if stripped.1 then -(n : Int) else (n : Int))
  else
    none

/-- Substring containment, Python `pat in s` (main.py line 133). -/
def strContains (s pat : String) : Bool :=
  (List.range (s.data.length + 1)).any fun i => pat.data.isPrefixOf (s.data.drop i)

/-- The common result record built by both clients and by the synthetic
fallback.  title, url and snippet are Option String because the Google branch
fills them with item.get(...), which is None when the upstream item omits the
field; source is always a literal string in main.py. -/
structure SearchResult where
  title : Option String
  url : Option String
  snippet : Option String
  source : String
deriving DecidableEq

/-- One item of the parsed Google JSON body: data.get("items", []) elements,
read with item.get("title"), item.get("link"), item.get("snippet")
(main.py lines 73-79). -/
structure GoogleItem where
  title : Option String
  link : Option String
  snippet : Option String
deriving DecidableEq

/-- Outcome of the HTTP GET against the Google Custom Search endpoint:
a 200 response with parsed items, a non-200 status code, or a raised
exception (network error or timeout). -/
inductive GoogleOutcome where
  | success (items : List GoogleItem)
  | httpStatus (code : Nat)
  | failure (e : String)
deriving DecidableEq

/-- google_search_api (main.py lines 49-90).  Returns none (the Python None
sentinel) when a key is missing, on 429, on any other non-200 status, or on an
exception; on 200 it normalizes each item with source "Google".  The start
index and num request parameters are modelled separately by
googleStartIndex and googleNum. -/
def google_search_api (apiKey cxId : Option String) (resp : GoogleOutcome) :
    Option (List SearchResult) :=
  if !(pyTruthy apiKey) || !(pyTruthy cxId) then
    none
  else
    match resp with
    | .success items =>
        some (items.map fun it =>
          { title := it.title, url := it.link, snippet := it.snippet,
            source := "Google" })
    | .httpStatus _ => none
    | .failure _ => none

/-- start_index = ((page - 1) * 10) + 1 (main.py line 55). -/
def googleStartIndex (page : Int) : Int :=
  (page - 1) * 10 + 1

/-- The fixed "num" request parameter (main.py line 63). -/
def googleNum : Int := 10

/-- skip = (page - 1) * 20, the "s" form field of the DDG Lite request
(main.py line 98). -/
def ddgSkip (page : Int) : Int :=
  (page - 1) * 20

/-- One table row of the scraped DDG Lite markup, abstracting the per-row
lookups of an anchor tag with class result-link and of a td with class
result-snippet (main.py lines 118-119): link is the (title text, href) of a
result link if the row has one, snippet is the snippet text if the row has
one. -/
structure Row where
  link : Option (String × String)
  snippet : Option String
deriving DecidableEq

/-- The record appended for a paired link and snippet
(main.py lines 122-128). -/
def mkDDGResult (title url snippet : String) : SearchResult :=
  { title := some title, url := some url, snippet := some snippet,
    source := "DuckDuckGo" }

/-- The row loop of ddg_lite_search (main.py lines 115-130): pending is
current_result (none models the empty dict, which is falsy), results is the
accumulator.  A link row overwrites pending; a snippet row with a non-empty
pending appends the paired record and clears pending; any other row leaves
the state unchanged. -/
def parseLoop : List Row → Option (String × String) → List SearchResult →
    List SearchResult
  | [], _, results => results
  | row :: rest, pending, results =>
    match row.link with
    | some (t, u) => parseLoop rest (some (t, u)) results
    | none =>
      match row.snippet, pending with
      | some s, some (t, u) =>
          parseLoop rest none (results ++ [mkDDGResult t u s])
      | _, _ => parseLoop rest pending results

/-- The full parse of a row list, starting from an empty current_result and
an empty results list. -/
def ddgParseRows (rows : List Row) : List SearchResult :=
  parseLoop rows none []

/-- Outcome of the HTTP POST against the DDG Lite endpoint: a 200 response
whose parsed table rows are given, a non-200 status, or a raised exception. -/
inductive DDGOutcome where
  | success (rows : List Row)
  | httpStatus (code : Nat)
  | failure (e : String)
deriving DecidableEq

/-- ddg_lite_search (main.py lines 92-139).  On a 200 response it parses the
rows, filters out results whose url contains "duckduckgo.com"
(line 133), and caps at 15 (line 134); any non-200 status or exception
yields [].  In the scraping path url is always set, so the getD default is
never taken. -/
def ddg_lite_search (resp : DDGOutcome) : List SearchResult :=
  match resp with
  | .success rows =>
      let results := ddgParseRows rows
      let clean := results.filter fun r =>
        !(strContains (r.url.getD "") "duckduckgo.com")
      clean.take 15
  | .httpStatus _ => []
  | .failure _ => []

/-- The priority step of the /search route (main.py lines 185-193):
google_results and len(google_results) > 0 is true exactly for a non-None,
non-empty list, in which case it wins; otherwise the DDG result is used. -/
def aggregate (goog : Option (List SearchResult)) (ddg : List SearchResult) :
    List SearchResult :=
  match goog with
  | some gs => if 0 < gs.length then gs else ddg
  | none => ddg

/-- The synthetic record substituted when both backends produce nothing on
page 1 (main.py lines 197-202). -/
def noResultsRecord : SearchResult :=
  { title := some "No Results Found", url := some "#",
    snippet := some "Both Google and DuckDuckGo failed to return results.",
    source := "System" }

/-- The tail of the /search route (main.py lines 195-204): substitute the
synthetic record when the aggregated list is empty and page == 1; the final
`final_results or []` is the identity on lists and is not modelled
separately. -/
def searchFinal (goog : Option (List SearchResult)) (ddg : List SearchResult)
    (page : Int) : List SearchResult :=
  let fr := aggregate goog ddg
  if fr = [] ∧ page = 1 then [noResultsRecord] else fr

/-- int(request.args.get("page", 1)) on main.py line 174: an absent page
parameter defaults to the integer 1, a present one goes through int();
none models the raised ValueError. -/
def pageOf (pageArg : Option String) : Option Int :=
  match pageArg with
  | none => some 1
  | some s => pyInt s

/-- The /search route handler (main.py lines 171-204).  The two backend
clients are passed as functions of the page so that independence from them
can be stated.  Python evaluates the page coercion on line 174, BEFORE the
empty-q check on line 176; a non-integer page value raises ValueError there,
modelled as Except.error.  An absent q defaults to "", so q is a plain
String. -/
def search (q : String) (pageArg : Option String)
    (goog : Int → Option (List SearchResult)) (ddg : Int → List SearchResult) :
    Except String (List SearchResult) :=
  match pageOf pageArg with
  | none => Except.error "ValueError"
  | some page =>
    if q = "" then Except.ok []
    else Except.ok (searchFinal (goog page) (ddg page) page)

/-- Sixteen parsed result pairs used to exhibit that the self-link filter
runs before the 15-result cap: the first parsed result links back to
duckduckgo.com, the other fifteen do not, so the fifteenth good pair (the
sixteenth parsed result) survives into the output. -/
def demoRows : List Row :=
  { link := some ("DuckDuckGo", "https://duckduckgo.com/about"),
    snippet := none } ::
  { link := none, snippet := some "self link" } ::
  ((List.range 15).flatMap fun i =>
    [{ link := some ("t" ++ toString i, "u" ++ toString i), snippet := none },
     { link := none, snippet := some ("s" ++ toString i) }])

/-- Fixture: a fully populated upstream Google item, used by witness
instantiations. -/
def demoItem : GoogleItem :=
  { title := some "T", link := some "L", snippet := some "S" }

/-- Fixture: the normalized record the structured client builds from
demoItem. -/
def demoGoogleResult : SearchResult :=
  { title := some "T", url := some "L", snippet := some "S",
    source := "Google" }

/-- Outcome of the forwarded chat completion call: a 200-path upstream JSON
body (resp.json(), kept opaque as a string), or a raised exception
(network, timeout, malformed response body). -/
inductive ChatUpstream where
  | success (body : String)
  | failure (e : String)
deriving DecidableEq

/-- The JSON body of a /chat response: either the upstream body passed
through, or the synthetic one-choice payload whose choices[0].message.content
is the given string. -/
inductive ChatReply where
  | upstreamJson (body : String)
  | syntheticError (content : String)
deriving DecidableEq

/-- The /chat route handler (main.py lines 147-169), returning the HTTP
status and the JSON body.  jsonify always answers 200; the missing-key branch
never reaches the upstream call, and any exception during forwarding is
caught and wrapped. -/
def chat_proxy (groqKey : Option String) (up : ChatUpstream) : Nat × ChatReply :=
  if !(pyTruthy groqKey) then
    (200, .syntheticError "**Error:** GROQ_API_KEY not configured.")
  else
    match up with
    | .success body => (200, .upstreamJson body)
    | .failure e => (200, .syntheticError ("**System Error:** " ++ e))

/-! Step lemmas for the parser loop: one per branch of the row loop. -/

theorem parseLoop_link (t u : String) (snip : Option String) (rest : List Row)
    (p : Option (String × String)) (acc : List SearchResult) :
    parseLoop ({ link := some (t, u), snippet := snip } :: rest) p acc =
      parseLoop rest (some (t, u)) acc := rfl

theorem parseLoop_pair (s t u : String) (rest : List Row)
    (acc : List SearchResult) :
    parseLoop ({ link := none, snippet := some s } :: rest) (some (t, u)) acc =
      parseLoop rest none (acc ++ [mkDDGResult t u s]) := rfl

theorem parseLoop_snip_unpaired (s : String) (rest : List Row)
    (acc : List SearchResult) :
    parseLoop ({ link := none, snippet := some s } :: rest) none acc =
      parseLoop rest none acc := rfl

theorem parseLoop_blank (rest : List Row) (p : Option (String × String))
    (acc : List SearchResult) :
    parseLoop ({ link := none, snippet := none } :: rest) p acc =
      parseLoop rest p acc := by
  cases p with
  | none => rfl
  | some tu => obtain ⟨t, u⟩ := tu; rfl

/-- The results accumulator only grows at the tail: the loop run from any
accumulator is that accumulator followed by the run from the empty one. -/
theorem parseLoop_acc (rows : List Row) :
    ∀ (p : Option (String × String)) (acc : List SearchResult),
      parseLoop rows p acc = acc ++ parseLoop rows p [] := by
  induction rows with
  | nil => intro p acc; simp [parseLoop]
  | cons row rest ih =>
    intro p acc
    obtain ⟨link, snip⟩ := row
    cases link with
    | some tu =>
      obtain ⟨t, u⟩ := tu
      rw [parseLoop_link, parseLoop_link, ih (some (t, u)) acc]
    | none =>
      cases snip with
      | some s =>
        cases p with
        | some tu =>
          obtain ⟨t, u⟩ := tu
          rw [parseLoop_pair, parseLoop_pair,
            ih none (acc ++ [mkDDGResult t u s]),
            ih none ([] ++ [mkDDGResult t u s])]
          simp
        | none =>
          rw [parseLoop_snip_unpaired, parseLoop_snip_unpaired, ih none acc]
      | none => rw [parseLoop_blank, parseLoop_blank, ih p acc]

/-- A trailing link row never contributes to the output, whatever its
snippet cell holds: the loop ends with it still pending. -/
theorem parseLoop_trailing_link (rows : List Row) :
    ∀ (p : Option (String × String)) (acc : List SearchResult)
      (t u : String) (os : Option String),
      parseLoop (rows ++ [{ link := some (t, u), snippet := os }]) p acc =
        parseLoop rows p acc := by
  induction rows with
  | nil =>
    intro p acc t u os
    rw [List.nil_append, parseLoop_link]
    rfl
  | cons row rest ih =>
    intro p acc t u os
    obtain ⟨link, snip⟩ := row
    cases link with
    | some tu =>
      obtain ⟨t2, u2⟩ := tu
      rw [List.cons_append, parseLoop_link, parseLoop_link, ih]
    | none =>
      cases snip with
      | some s =>
        cases p with
        | some tu =>
          obtain ⟨t2, u2⟩ := tu
          rw [List.cons_append, parseLoop_pair, parseLoop_pair, ih]
        | none =>
          rw [List.cons_append, parseLoop_snip_unpaired,
            parseLoop_snip_unpaired, ih]
      | none => rw [List.cons_append, parseLoop_blank, parseLoop_blank, ih]

/-- With no link row anywhere, the loop appends nothing: every snippet row
arrives with an empty pending buffer and is ignored. -/
theorem parseLoop_no_link (rows : List Row) :
    ∀ acc : List SearchResult, (∀ r ∈ rows, r.link = none) →
      parseLoop rows none acc = acc := by
  induction rows with
  | nil => intro acc _; rfl
  | cons row rest ih =>
    intro acc h
    obtain ⟨link, snip⟩ := row
    have hl : link = none := h _ (List.mem_cons_self _ _)
    subst hl
    have hrest : ∀ r ∈ rest, r.link = none := fun r hr => h r (List.mem_cons_of_mem _ hr)
    cases snip with
    | some s => rw [parseLoop_snip_unpaired, ih acc hrest]
    | none => rw [parseLoop_blank, ih acc hrest]

/-- Every record the loop emits beyond its starting accumulator is a paired
link/snippet record. -/
theorem parseLoop_mem (rows : List Row) :
    ∀ (p : Option (String × String)) (acc : List SearchResult)
      (r : SearchResult), r ∈ parseLoop rows p acc →
      r ∈ acc ∨ ∃ t u s, r = mkDDGResult t u s := by
  induction rows with
  | nil => intro p acc r hr; exact Or.inl hr
  | cons row rest ih =>
    intro p acc r hr
    obtain ⟨link, snip⟩ := row
    cases link with
    | some tu =>
      obtain ⟨t, u⟩ := tu
      rw [parseLoop_link] at hr
      exact ih (some (t, u)) acc r hr
    | none =>
      cases snip with
      | some s =>
        cases p with
        | some tu =>
          obtain ⟨t, u⟩ := tu
          rw [parseLoop_pair] at hr
          rcases ih none (acc ++ [mkDDGResult t u s]) r hr with hin | hmk
          · rcases List.mem_append.mp hin with ha | hb
            · exact Or.inl ha
            · refine Or.inr ⟨t, u, s, ?_⟩
              simpa using hb
          · exact Or.inr hmk
        | none =>
          rw [parseLoop_snip_unpaired] at hr
          exact ih none acc r hr
      | none =>
        rw [parseLoop_blank] at hr
        exact ih p acc r hr

/-- Every member of a scraping-client output is a paired link/snippet
record. -/
theorem ddg_lite_mem_shape (resp : DDGOutcome) (r : SearchResult)
    (h : r ∈ ddg_lite_search resp) : ∃ t u s, r = mkDDGResult t u s := by
  cases resp with
  | success rows =>
    have h1 : r ∈ (ddgParseRows rows).filter fun x =>
        !(strContains (x.url.getD "") "duckduckgo.com") :=
      List.take_subset _ _ h
    have h2 := (List.mem_filter.mp h1).1
    rcases parseLoop_mem rows none [] r h2 with hin | hmk
    · exact absurd hin (List.not_mem_nil r)
    · exact hmk
  | httpStatus c => exact absurd h (List.not_mem_nil r)
  | failure e => exact absurd h (List.not_mem_nil r)

/-- Every member of a scraping-client output passed the self-link filter. -/
theorem ddg_lite_mem_filter (resp : DDGOutcome) (r : SearchResult)
    (h : r ∈ ddg_lite_search resp) :
    strContains (r.url.getD "") "duckduckgo.com" = false := by
  cases resp with
  | success rows =>
    have h1 : r ∈ (ddgParseRows rows).filter fun x =>
        !(strContains (x.url.getD "") "duckduckgo.com") :=
      List.take_subset _ _ h
    have h2 := (List.mem_filter.mp h1).2
    simpa using h2
  | httpStatus c => exact absurd h (List.not_mem_nil r)
  | failure e => exact absurd h (List.not_mem_nil r)

/-- Every member of a structured-client result list carries source
"Google". -/
theorem google_mem_source (ak cx : Option String) (gr : GoogleOutcome)
    (gs : List SearchResult) (r : SearchResult)
    (h : google_search_api ak cx gr = some gs) (hr : r ∈ gs) :
    r.source = "Google" := by
  unfold google_search_api at h
  split at h
  · exact absurd h (by simp)
  · cases gr with
    | success items =>
      simp only [Option.some.injEq] at h
      subst h
      obtain ⟨it, _, hit⟩ := List.mem_map.mp hr
      rw [← hit]
    | httpStatus code => exact absurd h (by simp)
    | failure e => exact absurd h (by simp)

/-- The synthetic record is never produced by either backend, so it never
appears in the aggregated (pre-substitution) list. -/
theorem noResults_not_mem_aggregate (ak cx : Option String)
    (gr : GoogleOutcome) (dr : DDGOutcome) :
    noResultsRecord ∉ aggregate (google_search_api ak cx gr)
      (ddg_lite_search dr) := by
  intro h
  have hddg : noResultsRecord ∉ ddg_lite_search dr := by
    intro hd
    obtain ⟨t, u, s, he⟩ := ddg_lite_mem_shape dr _ hd
    have : noResultsRecord.source = "DuckDuckGo" := by rw [he]; rfl
    simp [noResultsRecord] at this
  cases hg : google_search_api ak cx gr with
  | none =>
    rw [hg] at h
    exact hddg h
  | some gs =>
    rw [hg] at h
    have ha : aggregate (some gs) (ddg_lite_search dr) =
        if 0 < gs.length then gs else ddg_lite_search dr := rfl
    rw [ha] at h
    by_cases hlen : 0 < gs.length
    · rw [if_pos hlen] at h
      have := google_mem_source ak cx gr gs _ hg h
      simp [noResultsRecord] at this
    · rw [if_neg hlen] at h
      exact hddg h

/-! Claim theorems. -/

/-- C1: aggregator priority/fallback policy.  A non-empty structured-client
list is returned exactly as is, the scraping outcome being discarded; when
the structured client yields the None sentinel or an empty list, the
pre-substitution aggregate is exactly the scraping-client output. -/
theorem aggregator_priority_fallback :
    (∀ (r : SearchResult) (rs ddg : List SearchResult),
        aggregate (some (r :: rs)) ddg = r :: rs) ∧
    (∀ ddg : List SearchResult, aggregate none ddg = ddg) ∧
    (∀ ddg : List SearchResult, aggregate (some []) ddg = ddg) := by
  refine ⟨fun r rs ddg => ?_, fun ddg => rfl, fun ddg => rfl⟩
  simp [aggregate]

/-- C2: synthetic no-results record.  With an empty pre-substitution list the
route returns exactly the one synthetic record on page 1 and the empty list
on any page greater than 1; and whenever the synthetic record appears in an
output built from real backend outcomes, it is the whole output, so a real
result and the synthetic record never coexist. -/
theorem synthetic_no_results_policy :
    (∀ (goog : Option (List SearchResult)) (ddg : List SearchResult),
        aggregate goog ddg = [] → searchFinal goog ddg 1 = [noResultsRecord]) ∧
    (∀ (goog : Option (List SearchResult)) (ddg : List SearchResult)
        (page : Int), 1 < page → aggregate goog ddg = [] →
        searchFinal goog ddg page = []) ∧
    (∀ (ak cx : Option String) (gr : GoogleOutcome) (dr : DDGOutcome)
        (page : Int),
        noResultsRecord ∈
          searchFinal (google_search_api ak cx gr) (ddg_lite_search dr) page →
        searchFinal (google_search_api ak cx gr) (ddg_lite_search dr) page =
          [noResultsRecord]) := by
  refine ⟨fun goog ddg h => ?_, fun goog ddg page hp h => ?_,
    fun ak cx gr dr page h => ?_⟩
  · simp [searchFinal, h]
  · simp only [searchFinal, h]
    rw [if_neg]
    rintro ⟨-, h1⟩
    omega
  · by_cases hc : aggregate (google_search_api ak cx gr)
        (ddg_lite_search dr) = [] ∧ page = 1
    · simp only [searchFinal]
      rw [if_pos hc]
    · simp only [searchFinal] at h ⊢
      rw [if_neg hc] at h
      exact absurd h (noResults_not_mem_aggregate ak cx gr dr)

/-- Witness for C2 at concrete inputs: both backends empty on page 1 gives
exactly the synthetic record, on page 2 the empty list, and through the
real client functions the synthetic output is the whole output. -/
theorem synthetic_no_results_policy_witness :
    searchFinal none [] 1 = [noResultsRecord] ∧
    searchFinal none [] 2 = [] ∧
    searchFinal (google_search_api none none (.failure "down"))
        (ddg_lite_search (.failure "down")) 1 = [noResultsRecord] :=
  ⟨synthetic_no_results_policy.1 none [] (by decide),
   synthetic_no_results_policy.2.1 none [] 2 (by decide) (by decide),
   synthetic_no_results_policy.2.2 none none (.failure "down")
     (.failure "down") 1 (by decide)⟩

/-- C5: scraping-parser state machine.  No link row anywhere means no output;
a snippet row arriving with no pending link is ignored; a link row followed
by a snippet row emits exactly the paired record; and a dangling link at the
end of the table is dropped. -/
theorem ddg_parser_state_machine :
    (∀ rows : List Row, (∀ r ∈ rows, r.link = none) → ddgParseRows rows = []) ∧
    (∀ (s : String) (rest : List Row),
        ddgParseRows ({ link := none, snippet := some s } :: rest) =
          ddgParseRows rest) ∧
    (∀ (t u s : String) (rest : List Row),
        ddgParseRows ({ link := some (t, u), snippet := none } ::
            { link := none, snippet := some s } :: rest) =
          mkDDGResult t u s :: ddgParseRows rest) ∧
    (∀ (rows : List Row) (t u : String),
        ddgParseRows (rows ++ [{ link := some (t, u), snippet := none }]) =
          ddgParseRows rows) := by
  refine ⟨fun rows h => parseLoop_no_link rows [] h,
    fun s rest => rfl, fun t u s rest => ?_, fun rows t u =>
      parseLoop_trailing_link rows none [] t u none⟩
  show parseLoop ({ link := some (t, u), snippet := none } ::
      { link := none, snippet := some s } :: rest) none [] = _
  rw [parseLoop_link, parseLoop_pair, parseLoop_acc rest none]
  rfl

/-- Witness for C5 at a concrete input: a table of one unpaired snippet row
and one blank row parses to nothing. -/
theorem ddg_parser_state_machine_witness :
    ddgParseRows [{ link := none, snippet := some "orphan" },
      { link := none, snippet := none }] = [] :=
  ddg_parser_state_machine.1 _ (by decide)

/-- C10: a second link row overwrites a pending unpaired link, silently
dropping the first one even mid-table; and a row carrying both a link and a
snippet is handled as a link row, its snippet ignored. -/
theorem ddg_parser_link_overwrite :
    (∀ (t1 u1 t2 u2 : String) (os1 os2 : Option String) (rest : List Row),
        ddgParseRows ({ link := some (t1, u1), snippet := os1 } ::
            { link := some (t2, u2), snippet := os2 } :: rest) =
          ddgParseRows ({ link := some (t2, u2), snippet := os2 } :: rest)) ∧
    (∀ (t u s : String) (rest : List Row),
        ddgParseRows ({ link := some (t, u), snippet := some s } :: rest) =
          ddgParseRows ({ link := some (t, u), snippet := none } :: rest)) ∧
    (∀ t1 u1 t2 u2 s : String,
        ddgParseRows [{ link := some (t1, u1), snippet := none },
          { link := some (t2, u2), snippet := none },
          { link := none, snippet := some s }] = [mkDDGResult t2 u2 s]) :=
  ⟨fun _ _ _ _ _ _ _ => rfl, fun _ _ _ _ => rfl, fun _ _ _ _ _ => rfl⟩

/-- C6: pagination offset mappings.  The structured client requests the
1-based start index (page-1)*10+1 with the fixed page size 10, the scraping
client the skip offset (page-1)*20; in particular pages 1, 2, 3 map to
start 1, 11, 21 and pages 1, 2 to skip 0, 20. -/
theorem pagination_offset_mappings :
    googleStartIndex 1 = 1 ∧ googleStartIndex 2 = 11 ∧
    googleStartIndex 3 = 21 ∧ googleNum = 10 ∧
    ddgSkip 1 = 0 ∧ ddgSkip 2 = 20 ∧
    (∀ page : Int, googleStartIndex page = (page - 1) * 10 + 1 ∧
        ddgSkip page = (page - 1) * 20) :=
  ⟨by decide, by decide, by decide, rfl, by decide, by decide,
   fun page => ⟨rfl, rfl⟩⟩

/-- C3 counterexample: a structured-client upstream item that omits title,
link and snippet is returned to the caller with null title, url and snippet,
refuting the non-null field invariant for structured results. -/
theorem google_null_fields_counterexample :
    searchFinal
        (google_search_api (some "key") (some "cx")
          (.success [{ title := none, link := none, snippet := none }]))
        (ddg_lite_search (.failure "down")) 1 =
      [{ title := none, url := none, snippet := none, source := "Google" }] := by
  decide

/-- C3 amended: every scraping-client result and the synthetic record have
non-null title, url, snippet and source; structured-client results always
carry source "Google" but take their title, url and snippet verbatim from
the upstream item, so those three are null exactly when the item omits
them. -/
theorem search_result_fields :
    (∀ (dr : DDGOutcome) (r : SearchResult), r ∈ ddg_lite_search dr →
        r.title.isSome ∧ r.url.isSome ∧ r.snippet.isSome ∧
          r.source = "DuckDuckGo") ∧
    (noResultsRecord.title.isSome ∧ noResultsRecord.url.isSome ∧
      noResultsRecord.snippet.isSome ∧ noResultsRecord.source = "System") ∧
    (∀ (ak cx : Option String) (gr : GoogleOutcome) (gs : List SearchResult)
        (r : SearchResult), google_search_api ak cx gr = some gs → r ∈ gs →
        r.source = "Google") ∧
    (∀ (ak cx : Option String) (items : List GoogleItem)
        (gs : List SearchResult) (r : SearchResult),
        google_search_api ak cx (.success items) = some gs → r ∈ gs →
        ∃ it ∈ items, r.title = it.title ∧ r.url = it.link ∧
          r.snippet = it.snippet) := by
  refine ⟨fun dr r h => ?_, by decide, google_mem_source,
    fun ak cx items gs r h hr => ?_⟩
  · obtain ⟨t, u, s, he⟩ := ddg_lite_mem_shape dr r h
    subst he
    exact ⟨rfl, rfl, rfl, rfl⟩
  · unfold google_search_api at h
    split at h
    · exact absurd h (by simp)
    · simp only [Option.some.injEq] at h
      subst h
      obtain ⟨it, hit, he⟩ := List.mem_map.mp hr
      exact ⟨it, hit, by rw [← he], by rw [← he], by rw [← he]⟩

/-- Witness for C3 amended at concrete inputs: a parsed scraping pair has
all fields set, and a structured result copies its upstream item fields. -/
theorem search_result_fields_witness :
    ((mkDDGResult "t0" "u0" "s0").title.isSome ∧
      (mkDDGResult "t0" "u0" "s0").url.isSome ∧
      (mkDDGResult "t0" "u0" "s0").snippet.isSome ∧
      (mkDDGResult "t0" "u0" "s0").source = "DuckDuckGo") ∧
    demoGoogleResult.source = "Google" ∧
    (∃ it ∈ [demoItem], demoGoogleResult.title = it.title ∧
      demoGoogleResult.url = it.link ∧
      demoGoogleResult.snippet = it.snippet) :=
  ⟨search_result_fields.1
      (.success [{ link := some ("t0", "u0"), snippet := none },
        { link := none, snippet := some "s0" }])
      (mkDDGResult "t0" "u0" "s0") (by decide),
   search_result_fields.2.2.1 (some "k") (some "c") (.success [demoItem])
      [demoGoogleResult] demoGoogleResult (by decide) (by decide),
   search_result_fields.2.2.2 (some "k") (some "c") [demoItem]
      [demoGoogleResult] demoGoogleResult (by decide) (by decide)⟩

/-- C4 counterexample: a non-integer page value makes the /search handler
raise ValueError out of the route body instead of returning a JSON result,
so the exception does reach the HTTP layer. -/
theorem search_nonint_page_counterexample :
    search "rust" (some "abc") (fun _ => none) (fun _ => []) =
      Except.error "ValueError" := rfl

/-- C4 amended: whenever the page parameter coerces to an integer (which
includes the absent-page default), the /search handler returns a JSON result
list for every backend behavior, and the /chat handler always answers
status 200. -/
theorem search_handler_json_amended :
    (∀ (q : String) (pageArg : Option String) (n : Int)
        (goog : Int → Option (List SearchResult))
        (ddg : Int → List SearchResult), pageOf pageArg = some n →
        ∃ l, search q pageArg goog ddg = Except.ok l) ∧
    (∀ (key : Option String) (up : ChatUpstream), (chat_proxy key up).1 = 200) := by
  constructor
  · intro q pageArg n goog ddg h
    unfold search
    rw [h]
    by_cases hq : q = ""
    · exact ⟨[], by simp [hq]⟩
    · exact ⟨searchFinal (goog n) (ddg n) n, by simp [hq]⟩
  · intro key up
    cases hk : pyTruthy key <;> cases up <;> simp [chat_proxy, hk]

/-- Witness for C4 amended at a concrete input: page "2" parses, so the
handler answers with a JSON result list. -/
theorem search_handler_json_amended_witness :
    ∃ l, search "lean" (some "2") (fun _ => none) (fun _ => []) =
      Except.ok l :=
  search_handler_json_amended.1 "lean" (some "2") 2 (fun _ => none)
    (fun _ => []) (by decide)

/-- C7: the scraping client returns at most 15 results, none of whose urls
contain "duckduckgo.com"; and on a table whose first parsed result is a
self-link followed by fifteen clean pairs, the sixteenth parsed result is in
the output and the output still has 15 elements, so the filter runs before
the cap. -/
theorem ddg_filter_and_cap :
    (∀ resp : DDGOutcome, (ddg_lite_search resp).length ≤ 15) ∧
    (∀ (resp : DDGOutcome) (r : SearchResult), r ∈ ddg_lite_search resp →
        strContains (r.url.getD "") "duckduckgo.com" = false) ∧
    ((ddgParseRows demoRows).length = 16 ∧
      (ddg_lite_search (.success demoRows)).length = 15 ∧
      mkDDGResult "t14" "u14" "s14" ∈ ddg_lite_search (.success demoRows)) := by
  refine ⟨fun resp => ?_, ddg_lite_mem_filter, by decide⟩
  cases resp with
  | success rows =>
    have h : (((ddgParseRows rows).filter fun x =>
        !(strContains (x.url.getD "") "duckduckgo.com")).take 15).length ≤ 15 := by
      rw [List.length_take]
      exact Nat.min_le_left _ _
    exact h
  | httpStatus c => exact Nat.zero_le 15
  | failure e => exact Nat.zero_le 15

/-- Witness for C7 at a concrete input: a parsed external link passes the
self-link filter. -/
theorem ddg_filter_and_cap_witness :
    strContains ((mkDDGResult "w1" "https://example.org" "w2").url.getD "")
      "duckduckgo.com" = false :=
  ddg_filter_and_cap.2.1
    (.success [{ link := some ("w1", "https://example.org"), snippet := none },
      { link := none, snippet := some "w2" }])
    (mkDDGResult "w1" "https://example.org" "w2") (by decide)

/-- C8: with no configured key the /chat handler answers 200 with the
synthetic configuration-error payload, independently of any upstream
outcome (so without calling upstream); any exception during forwarding
yields 200 with the synthetic system-error payload; and the status is 200
in every case. -/
theorem chat_proxy_policy :
    (∀ up : ChatUpstream, chat_proxy none up =
        (200, .syntheticError "**Error:** GROQ_API_KEY not configured.")) ∧
    (∀ up1 up2 : ChatUpstream, chat_proxy none up1 = chat_proxy none up2) ∧
    (∀ (key : Option String) (e : String), pyTruthy key = true →
        chat_proxy key (.failure e) =
          (200, .syntheticError ("**System Error:** " ++ e))) ∧
    (∀ (key : Option String) (up : ChatUpstream), (chat_proxy key up).1 = 200) := by
  refine ⟨fun up => rfl, fun up1 up2 => rfl, fun key e h => ?_,
    fun key up => ?_⟩
  · simp [chat_proxy, h]
  · cases hk : pyTruthy key <;> cases up <;> simp [chat_proxy, hk]

/-- Witness for C8 at a concrete input: a configured key and a timeout
exception give 200 with the synthetic system-error payload. -/
theorem chat_proxy_policy_witness :
    chat_proxy (some "gsk") (.failure "timeout") =
      (200, .syntheticError ("**System Error:** " ++ "timeout")) :=
  chat_proxy_policy.2.2.1 (some "gsk") "timeout" (by decide)

/-- C9 counterexample: with an empty q but a non-integer page value, the
handler raises ValueError before the empty-q check, so the response is not
the empty result list. -/
theorem empty_query_nonint_page_counterexample :
    search "" (some "7x") (fun _ => none) (fun _ => []) =
      Except.error "ValueError" := rfl

/-- C9 amended: with an empty q and a page value that coerces to an integer
(including the absent-page default), the handler returns the empty result
list for every possible backend behavior, so neither backend outcome is
consulted. -/
theorem empty_query_amended :
    ∀ (pageArg : Option String) (n : Int)
      (goog : Int → Option (List SearchResult))
      (ddg : Int → List SearchResult), pageOf pageArg = some n →
      search "" pageArg goog ddg = Except.ok [] := by
  intro pageArg n goog ddg h
  unfold search
  rw [h]
  simp

/-- Witness for C9 amended at a concrete input: page "3" parses and the
backends are rich, yet the empty-q response is the empty list. -/
theorem empty_query_amended_witness :
    search "" (some "3") (fun _ => some [noResultsRecord])
      (fun _ => [mkDDGResult "a" "b" "c"]) = Except.ok [] :=
  empty_query_amended (some "3") 3 (fun _ => some [noResultsRecord])
    (fun _ => [mkDDGResult "a" "b" "c"]) (by decide)

end SEAPI

